import Mathlib

/-!
Verification development for the frame-selection engine implemented in
extract_frames.py and generate_slides.py.

The embedding works on the grayscale comparison image actually used for
scoring: an image is the list of its grayscale pixel values (each in
0..255).  The cv2 resize and color conversion steps are pure image
plumbing; the embedding takes the resulting grayscale pixels as input and
models exactly the arithmetic and control flow the python code performs on
them.  numpy uint8 arithmetic (which wraps modulo 256) is modelled
explicitly; numpy float statistics are modelled with exact rational
arithmetic.  The Pearson histogram correlation returned by
cv2.compareHist involves a square root, so it is kept as an oracle
parameter hc of the pipelines; every theorem quantifies over it.
Comparisons of the form std < c are encoded as variance < c^2, which is
equivalent because both sides are nonnegative.
-/

namespace FrameSelect

/-- A comparison image: the grayscale pixel values (each in 0..255) of the
downscaled frame that the python code feeds to the scoring arithmetic. -/
structure Img where
  pixels : List ℕ
deriving DecidableEq

/-- Mean of a list of rationals, with the numpy convention that the values
are averaged by the length (np.mean). -/
def listMean (xs : List ℚ) : ℚ := xs.sum / xs.length

/-- np.mean over natural-number pixel data. -/
def meanQ (xs : List ℕ) : ℚ := listMean (xs.map (fun x => (x : ℚ)))

/-- Population variance, the square of np.std. -/
def varQ (xs : List ℕ) : ℚ := listMean (xs.map (fun x => ((x : ℚ) - meanQ xs) ^ 2))

/-- uint8 subtraction with wraparound: what numpy computes for
gray1 - gray2 on uint8 arrays.  Inputs are assumed to be below 256. -/
def u8sub (a b : ℕ) : ℕ := (a + 256 - b) % 256

/-- uint8 squaring with wraparound: what numpy computes for x ** 2 on a
uint8 array. -/
def u8sq (d : ℕ) : ℕ := d * d % 256

/-- The value np.mean((gray1 - gray2) ** 2) actually computes on uint8
grayscale arrays: per-pixel wrapped difference, wrapped square, then the
float mean of the wrapped bytes. -/
def mseU8 (g1 g2 : List ℕ) : ℚ :=
  meanQ (List.zipWith (fun a b => u8sq (u8sub a b)) g1 g2)

/-- The mathematical mean squared error over the same pixels, with no
wraparound. -/
def mseTrue (g1 g2 : List ℕ) : ℚ :=
  listMean (List.zipWith (fun a b => ((a : ℚ) - b) ^ 2) g1 g2)

/-- np.mean(np.abs(gray1.astype(float) - gray2.astype(float))): the mean
absolute difference, computed in a wide domain (exact here). -/
def madQ (g1 g2 : List ℕ) : ℚ :=
  listMean (List.zipWith (fun a b => |(a : ℚ) - b|) g1 g2)

/-- An image file as seen by the batch pipeline in generate_slides.py:
either cv2.imread returns None (fail), or the image loads but the
subsequent cv2 processing raises an exception (malformed), or it loads and
processes cleanly to a comparison image (ok). -/
inductive ImgFile
  | fail
  | malformed
  | ok (img : Img)
deriving DecidableEq

/-- The black test inside are_frames_similar (generate_slides.py lines
53-54): avg_bright < 50 and std_bright < 20, the latter encoded as
variance < 400. -/
def frameIsBlack (i : Img) : Bool :=
  decide (meanQ i.pixels < 50) && decide (varQ i.pixels < 400)

/-- The pure score rule of generate_slides.py lines 79-83: similar when
(hist_corr > similarity_threshold and mse < mse_threshold) or
abs_diff < 15 or hist_corr > 0.98.  This is also literally the duplicate
rule stated by the specification. -/
def scoreSimilar (h mse ad simThr mseThr : ℚ) : Bool :=
  (decide (simThr < h) && decide (mse < mseThr)) || decide (ad < 15)
    || decide ((98 : ℚ)/100 < h)

/-- The body of are_frames_similar on two successfully loaded images
(generate_slides.py lines 36-83), after the resize and grayscale steps. -/
def are_frames_similar_core (hc : Img → Img → ℚ) (simThr mseThr : ℚ)
    (i1 i2 : Img) : Bool :=
  let black1 := frameIsBlack i1
  let black2 := frameIsBlack i2
  if black1 && black2 then true
  else if (black1 || black2)
      && (decide (meanQ i1.pixels < 80) || decide (meanQ i2.pixels < 80)) then true
  else scoreSimilar (hc i1 i2) (mseU8 i1.pixels i2.pixels)
    (madQ i1.pixels i2.pixels) simThr mseThr

/-- The try block of are_frames_similar: returns ok false when either
imread gives None (checked before any raising computation), raises when a
loaded image is malformed for the later cv2 calls, and otherwise returns
the core decision. -/
def are_frames_similar_body (hc : Img → Img → ℚ) (simThr mseThr : ℚ) :
    ImgFile → ImgFile → Except Unit Bool
  | .fail, _ => .ok false
  | _, .fail => .ok false
  | .malformed, _ => .error ()
  | _, .malformed => .error ()
  | .ok i1, .ok i2 => .ok (are_frames_similar_core hc simThr mseThr i1 i2)

/-- The except handler shared by are_frames_similar and is_black_frame in
generate_slides.py: a raised exception is converted to False. -/
def runCaught (e : Except Unit Bool) : Bool :=
  match e with
  | .ok b => b
  | .error _ => false

/-- are_frames_similar of generate_slides.py (lines 14-86): the body under
the try/except that returns False on any exception. -/
def are_frames_similar (hc : Img → Img → ℚ) (simThr mseThr : ℚ)
    (a b : ImgFile) : Bool :=
  runCaught (are_frames_similar_body hc simThr mseThr a b)

/-- The brightness heuristics of is_black_frame (generate_slides.py lines
162-165): (mean < 50 and std < 20) or (mean < 80 and std < 25) or
mean < 60, with std < c encoded as variance < c^2. -/
def degenerateTest (i : Img) : Bool :=
  (decide (meanQ i.pixels < 50) && decide (varQ i.pixels < 400))
    || (decide (meanQ i.pixels < 80) && decide (varQ i.pixels < 625))
    || decide (meanQ i.pixels < 60)

/-- The try block of is_black_frame: imread returning None yields True,
a malformed image raises, a clean image is judged by the brightness
heuristics. -/
def is_black_frame_body : ImgFile → Except Unit Bool
  | .fail => .ok true
  | .malformed => .error ()
  | .ok i => .ok (degenerateTest i)

/-- is_black_frame of generate_slides.py (lines 149-167): the body under
a bare except that returns False. -/
def is_black_frame (f : ImgFile) : Bool := runCaught (is_black_frame_body f)

/-- State of the batch duplicate/black filter loop of generate_slides.py
(lines 144-188): the filtered image list, previous_image, and the two skip
counters. -/
structure BatchState where
  filtered : List ImgFile
  prev : Option ImgFile
  dupCount : ℕ
  blackCount : ℕ
deriving DecidableEq

/-- The initial batch-filter state. -/
def batchInit : BatchState := ⟨[], none, 0, 0⟩

/-- One iteration of the batch filter loop (generate_slides.py lines
169-188): black frames are counted and dropped, the first surviving frame
is always kept, later frames are kept exactly when not similar to
previous_image, which is then updated. -/
def batchStep (hc : Img → Img → ℚ) (simThr mseThr : ℚ)
    (s : BatchState) (f : ImgFile) : BatchState :=
  if is_black_frame f then
    { s with blackCount := s.blackCount + 1 }
  else
    match s.prev with
    | none => { s with filtered := s.filtered ++ [f], prev := some f }
    | some p =>
      if are_frames_similar hc simThr mseThr p f then
        { s with dupCount := s.dupCount + 1 }
      else
        { s with filtered := s.filtered ++ [f], prev := some f }

/-- The whole batch filtering pass over an ordered image list. -/
def generate_slides_filter (hc : Img → Img → ℚ) (simThr mseThr : ℚ)
    (imgs : List ImgFile) : BatchState :=
  imgs.foldl (batchStep hc simThr mseThr) batchInit

/-- State of the streaming change-detection loop of
extract_different_frames (extract_frames.py lines 161-241): positions of
kept frames, last_saved_frame, and saved_count. -/
structure StreamState where
  kept : List ℕ
  lastSaved : Option Img
  savedCount : ℕ
deriving DecidableEq

/-- The initial streaming state. -/
def streamInit : StreamState := ⟨[], none, 0⟩

/-- calculate_frame_difference of extract_frames.py (lines 96-116) on the
grayscale comparison images: the uint8 mse and the histogram correlation
(the latter via the oracle hc). -/
def calculate_frame_difference (hc : Img → Img → ℚ) (f1 f2 : Img) : ℚ × ℚ :=
  (mseU8 f1.pixels f2.pixels, hc f1 f2)

/-- One iteration of the streaming loop (extract_frames.py lines 191-231):
the first frame is always saved; a later candidate is saved exactly when
is_different, that is mse > threshold or hist_corr < min_hist_diff, and
then becomes last_saved_frame; otherwise the state is unchanged. -/
def streamStep (hc : Img → Img → ℚ) (thr minHist : ℚ)
    (s : StreamState) (idx : ℕ) (img : Img) : StreamState :=
  match s.lastSaved with
  | none => ⟨s.kept ++ [idx], some img, s.savedCount + 1⟩
  | some last =>
    let d := calculate_frame_difference hc last img
    if decide (thr < d.1) || decide (d.2 < minHist) then
      ⟨s.kept ++ [idx], some img, s.savedCount + 1⟩
    else s

/-- extract_different_frames restricted to its selection logic: fold the
streaming step over the ordered frame sequence, tracking positions. -/
def extract_different_frames_run (hc : Img → Img → ℚ) (thr minHist : ℚ)
    (frames : List Img) : StreamState :=
  frames.enum.foldl (fun s p => streamStep hc thr minHist s p.1 p.2) streamInit

/-- The step size computed by extract_key_frames (extract_frames.py line
282): total_frames // (num_frames + 1), python floor division on
nonnegative operands being ℕ division. -/
def key_frame_step (totalFrames numFrames : ℕ) : ℕ :=
  totalFrames / (numFrames + 1)

/-- The index list of extract_key_frames (extract_frames.py line 283):
step * (i + 1) for i in range(num_frames). -/
def key_frame_indices (totalFrames numFrames : ℕ) : List ℕ :=
  (List.range numFrames).map (fun i => key_frame_step totalFrames numFrames * (i + 1))

/-- extract_key_frames (extract_frames.py lines 282-308): seek to each
index in list order, and keep every frame that decodes, unconditionally.
The decode oracle models cap.read after cap.set to the index. -/
def extract_key_frames_run (decode : ℕ → Option Img) (totalFrames numFrames : ℕ) :
    List (ℕ × Img) :=
  (key_frame_indices totalFrames numFrames).filterMap
    (fun idx => (decode idx).map (fun im => (idx, im)))

/-- Python int() truncation toward zero on an exact rational. -/
def pytrunc (q : ℚ) : ℤ := if q < 0 then -(Int.floor (-q)) else Int.floor q

/-- Whether the max_frames break test of extract_frames.py line 68 fires:
the python expression max_frames and saved_count >= max_frames, where
None and 0 are falsy. -/
def maxFramesHit (maxFrames : Option ℕ) (savedCount : ℕ) : Bool :=
  match maxFrames with
  | none => false
  | some m => decide (0 < m) && decide (m ≤ savedCount)

/-- The while loop of extract_frames (extract_frames.py lines 61-89):
each frame whose count is a multiple of frame_interval is saved (subject
to the max_frames break); python raises ZeroDivisionError when the
modulus frame_interval is zero, modelled by the error case. -/
def extract_frames_loop (frameInterval : ℤ) (maxFrames : Option ℕ) :
    ℕ → ℕ → List Img → Except Unit (List ℕ)
  | _, _, [] => .ok []
  | frameCount, savedCount, _ :: rest =>
    if frameInterval = 0 then .error ()
    else if (frameCount : ℤ) % frameInterval = 0 then
      if maxFramesHit maxFrames savedCount then .ok []
      else
        (fun l => frameCount :: l) <$>
          extract_frames_loop frameInterval maxFrames (frameCount + 1) (savedCount + 1) rest
    else extract_frames_loop frameInterval maxFrames (frameCount + 1) savedCount rest

/-- extract_frames (extract_frames.py lines 15-93) restricted to its
selection logic: frame_interval = int(fps * interval), then the loop from
frame_count = 0, returning the saved frame counts. -/
def extract_frames_run (fps interval : ℚ) (maxFrames : Option ℕ)
    (frames : List Img) : Except Unit (List ℕ) :=
  extract_frames_loop (pytrunc (fps * interval)) maxFrames 0 0 frames

/-- Comparison-frame dimensions produced by the streaming pass
(extract_frames.py lines 181-189): when width > resize_width the frame is
scaled to resize_width and proportional height int(height * scale);
otherwise it is copied unchanged. -/
def stream_comparison_dims (resizeW w h : ℕ) : ℕ × ℕ :=
  if resizeW < w then (resizeW, h * resizeW / w) else (w, h)

/-- Comparison-frame dimensions produced by the batch pass
(generate_slides.py lines 37-38): min of both source dimensions and the
480 by 640 cap. -/
def batch_comparison_dims (w1 h1 w2 h2 : ℕ) : ℕ × ℕ :=
  (min (min w1 w2) 640, min (min h1 h2) 480)

/-- A bright one-pixel comparison image (grayscale value 200). -/
def imgA : Img := ⟨[200]⟩

/-- A fully black one-pixel comparison image (grayscale value 0). -/
def imgB : Img := ⟨[0]⟩

/-- A histogram-correlation oracle that reports 0.99 for every pair. -/
def hcConst : Img → Img → ℚ := fun _ _ => 99/100

/-- A histogram-correlation oracle that reports 0 for every pair. -/
def hc0 : Img → Img → ℚ := fun _ _ => 0

/-- A decode oracle for the key-frame mode under which every index
decodes, to a one-pixel image recording the index. -/
def dec0 : ℕ → Option Img := fun i => some ⟨[i]⟩

/-- A nine-image batch with three fully black frames interleaved. -/
def imgs9 : List ImgFile :=
  [.ok imgA, .ok imgB, .ok imgA, .ok imgB, .ok imgA, .ok imgB,
    .ok imgA, .ok imgA, .ok imgA]

end FrameSelect

namespace FrameSelect

/-- C3. The similarity metric does not compute the mathematical mean
squared error: on one-pixel comparison frames with grayscale values 0 and
16, the uint8 arithmetic of np.mean((gray1 - gray2) ** 2) wraps twice and
yields 0, while the true mean squared difference is 256.  The
calculate_frame_difference docstring promises the Mean Squared Error, so
this is a divergence of the code from its own documentation. -/
theorem c3_mse_uint8_wraparound :
    mseU8 [0] [16] = 0 ∧ mseTrue [0] [16] = 256 ∧
      (calculate_frame_difference hcConst ⟨[0]⟩ ⟨[16]⟩).1 = 0 := by
  refine ⟨?_, ?_, ?_⟩
  · norm_num [mseU8, meanQ, listMean, u8sub, u8sq]
  · norm_num [mseTrue, listMean]
  · norm_num [calculate_frame_difference, mseU8, meanQ, listMean, u8sub, u8sq]

/-- C9. The change-detection selection is a pure function of the ordered
input sequence, the thresholds and the metric: two runs on equal inputs
with equal configuration produce identical kept-frame index lists. -/
theorem c9_change_detection_deterministic :
    ∀ (hc : Img → Img → ℚ) (thr minHist : ℚ) (frames1 frames2 : List Img),
      frames1 = frames2 →
      (extract_different_frames_run hc thr minHist frames1).kept =
        (extract_different_frames_run hc thr minHist frames2).kept := by
  intro hc thr minHist frames1 frames2 h
  rw [h]

/-- Witness for C9 at a concrete input. -/
theorem c9_change_detection_deterministic_witness :
    (extract_different_frames_run hcConst 30 (95/100) [imgA]).kept =
      (extract_different_frames_run hcConst 30 (95/100) [imgA]).kept :=
  c9_change_detection_deterministic hcConst 30 (95/100) [imgA] [imgA] rfl

/-- C8 counterexample. A portrait source frame of width 480 and height
3000 passes the streaming comparison resize unchanged, so the comparison
frame has height 3000, far above the claimed 480 bound. -/
theorem c8_counterexample :
    stream_comparison_dims 640 480 3000 = (480, 3000) ∧
      ¬ (stream_comparison_dims 640 480 3000).2 ≤ 480 := by
  refine ⟨?_, ?_⟩ <;> norm_num [stream_comparison_dims]

/-- C8 amended. The batch pass bounds both comparison dimensions, at most
640 wide and 480 high; the streaming pass at its default resize width
bounds only the width by 640, scaling the height proportionally with no
480 cap. -/
theorem c8_amended :
    (∀ w1 h1 w2 h2 : ℕ,
        (batch_comparison_dims w1 h1 w2 h2).1 ≤ 640 ∧
          (batch_comparison_dims w1 h1 w2 h2).2 ≤ 480) ∧
      ∀ w h : ℕ, (stream_comparison_dims 640 w h).1 ≤ 640 := by
  constructor
  · intro w1 h1 w2 h2
    exact ⟨min_le_right _ _, min_le_right _ _⟩
  · intro w h
    unfold stream_comparison_dims
    split <;> simp_all

/-- C1 counterexample. On one-pixel frames with grayscale values 200 and
0 and a histogram correlation of 0.99, the claimed duplicate rule fires
(hist_corr > 0.98), yet the streaming change-detection pass at its default
configuration keeps the second frame instead of discarding it: its
is_different test (mse > 30 or hist_corr < 0.95) succeeds because the
uint8 mse is 64. -/
theorem c1_counterexample :
    scoreSimilar (hcConst imgA imgB) (mseU8 imgA.pixels imgB.pixels)
        (madQ imgA.pixels imgB.pixels) (95/100) 30 = true ∧
      (extract_different_frames_run hcConst 30 (95/100) [imgA, imgB]).kept = [0, 1] := by
  constructor
  · norm_num [scoreSimilar, hcConst, imgA, imgB, mseU8, madQ, meanQ, listMean, u8sub, u8sq]
  · norm_num [extract_different_frames_run, streamStep, streamInit,
      calculate_frame_difference, mseU8, meanQ, listMean, u8sub, u8sq,
      hcConst, imgA, imgB, List.enum]

/-- C2 counterexample. The streaming change-detection pass has no
degeneracy check: a fully black first frame, which the degeneracy
classifier marks black, is kept in the output and becomes the comparison
frame. -/
theorem c2_counterexample :
    is_black_frame (.ok imgB) = true ∧
      (extract_different_frames_run hcConst 30 (95/100) [imgB]).kept = [0] ∧
      (extract_different_frames_run hcConst 30 (95/100) [imgB]).lastSaved = some imgB := by
  refine ⟨?_, ?_, ?_⟩
  · norm_num [is_black_frame, is_black_frame_body, runCaught, degenerateTest,
      imgB, meanQ, varQ, listMean]
  · norm_num [extract_different_frames_run, streamStep, streamInit, List.enum]
  · norm_num [extract_different_frames_run, streamStep, streamInit, List.enum]

/-- C10. Fixed-interval extraction computes frame_interval as
int(fps * interval); whenever that product is nonnegative and below 1,
for example when the reported fps is 0, the very first frame hits a
modulo by zero and the pass faults instead of returning a frame list. -/
theorem c10_modulo_by_zero :
    ∀ (fps interval : ℚ) (maxFrames : Option ℕ) (f : Img) (rest : List Img),
      0 ≤ fps * interval → fps * interval < 1 →
      extract_frames_run fps interval maxFrames (f :: rest) = .error () := by
  intro fps interval maxFrames f rest h0 h1
  have htr : pytrunc (fps * interval) = 0 := by
    unfold pytrunc
    rw [if_neg (not_lt.mpr h0)]
    exact Int.floor_eq_zero_iff.mpr ⟨h0, h1⟩
  unfold extract_frames_run
  rw [htr]
  unfold extract_frames_loop
  simp

/-- Witness for C10: a video reporting fps 0 at the default 5 second
interval faults on a one-frame stream. -/
theorem c10_modulo_by_zero_witness :
    extract_frames_run 0 5 none [imgA] = .error () :=
  c10_modulo_by_zero 0 5 none imgA [] (by norm_num) (by norm_num)

/-- A frame passing the black test of are_frames_similar has mean
brightness below 80, so the dark-pair fallback condition always holds for
it. -/
theorem frameIsBlack_mean_lt (i : Img) (h : frameIsBlack i = true) :
    meanQ i.pixels < 80 := by
  unfold frameIsBlack at h
  simp only [Bool.and_eq_true, decide_eq_true_eq] at h
  linarith [h.1]

/-- C4. In the batch pass, whenever either compared frame passes the
black test, are_frames_similar returns true no matter what the score
rules say: a black pair hits the first rule, and a single black endpoint
hits the second rule because black implies mean brightness below 80. -/
theorem c4_black_endpoint_forces_similar :
    ∀ (hc : Img → Img → ℚ) (simThr mseThr : ℚ) (i1 i2 : Img),
      frameIsBlack i1 = true ∨ frameIsBlack i2 = true →
      are_frames_similar hc simThr mseThr (.ok i1) (.ok i2) = true := by
  intro hc simThr mseThr i1 i2 hor
  unfold are_frames_similar are_frames_similar_body runCaught are_frames_similar_core
  cases hb1 : frameIsBlack i1 <;> cases hb2 : frameIsBlack i2
  · simp [hb1, hb2] at hor
  · simp [hb1, hb2, frameIsBlack_mean_lt i2 hb2]
  · simp [hb1, hb2, frameIsBlack_mean_lt i1 hb1]
  · simp [hb1, hb2]

/-- Witness for C4: a black frame next to a bright frame is reported
similar although the pure score rules reject the pair. -/
theorem c4_black_endpoint_forces_similar_witness :
    are_frames_similar hc0 (92/100) 200 (.ok imgB) (.ok imgA) = true ∧
      scoreSimilar (hc0 imgB imgA) (mseU8 imgB.pixels imgA.pixels)
        (madQ imgB.pixels imgA.pixels) (92/100) 200 = false :=
  ⟨c4_black_endpoint_forces_similar hc0 (92/100) 200 imgB imgA
      (Or.inl (by norm_num [frameIsBlack, imgB, meanQ, varQ, listMean])),
    by norm_num [scoreSimilar, hc0, imgB, imgA, mseU8, madQ, meanQ, listMean, u8sub, u8sq]⟩

/-- C5. The degeneracy classifier reports true when the image payload
cannot be decoded (imread returns None), and an exception raised inside
its body is caught and converted to a boolean answer, never propagated to
the caller. -/
theorem c5_degenerate_on_decode_failure :
    is_black_frame .fail = true ∧
      ∀ (f : ImgFile) (e : Unit),
        is_black_frame_body f = .error e → is_black_frame f = false := by
  constructor
  · rfl
  · intro f e h
    simp [is_black_frame, runCaught, h]

/-- Witness for C5: an image that raises inside the classifier body gets
the answer false rather than a fault. -/
theorem c5_degenerate_on_decode_failure_witness :
    is_black_frame ImgFile.malformed = false :=
  c5_degenerate_on_decode_failure.2 .malformed () rfl

/-- C6. When the similarity computation raises, are_frames_similar
returns false instead of propagating the fault, and consequently the
batch filter keeps the candidate frame rather than dropping it. -/
theorem c6_comparison_failure_not_similar :
    (∀ (hc : Img → Img → ℚ) (simThr mseThr : ℚ) (a b : ImgFile) (e : Unit),
        are_frames_similar_body hc simThr mseThr a b = .error e →
        are_frames_similar hc simThr mseThr a b = false) ∧
      ∀ (hc : Img → Img → ℚ) (simThr mseThr : ℚ) (s : BatchState) (p f : ImgFile),
        s.prev = some p → is_black_frame f = false →
        are_frames_similar_body hc simThr mseThr p f = .error () →
        (batchStep hc simThr mseThr s f).filtered = s.filtered ++ [f] := by
  constructor
  · intro hc simThr mseThr a b e h
    simp [are_frames_similar, runCaught, h]
  · intro hc simThr mseThr s p f hp hb he
    have hsim : are_frames_similar hc simThr mseThr p f = false := by
      simp [are_frames_similar, runCaught, he]
    simp [batchStep, hb, hp, hsim]

/-- Witness for C6: comparing against a frame whose processing raises
yields not-similar, and the batch step keeps that frame. -/
theorem c6_comparison_failure_not_similar_witness :
    are_frames_similar hcConst (92/100) 200 .malformed (.ok imgA) = false ∧
      (batchStep hcConst (92/100) 200 ⟨[], some (.ok imgA), 0, 0⟩ .malformed).filtered =
        [ImgFile.malformed] :=
  ⟨c6_comparison_failure_not_similar.1 hcConst (92/100) 200 .malformed (.ok imgA) () rfl,
    c6_comparison_failure_not_similar.2 hcConst (92/100) 200
      ⟨[], some (.ok imgA), 0, 0⟩ (.ok imgA) .malformed rfl rfl rfl⟩

/-- C1 amended. The two passes use different duplicate rules.  Streaming:
once a comparison frame is tracked, a candidate is discarded (state
unchanged) exactly when mse <= threshold and hist_corr >= min_hist_diff,
with no mean-absolute-difference rule and no 0.98 override.  Batch: when
both images decode and neither passes the black test, are_frames_similar
agrees exactly with the claimed rule (hist_corr > similarity_threshold
and mse < mse_threshold) or abs_diff < 15 or hist_corr > 0.98. -/
theorem c1_amended :
    (∀ (hc : Img → Img → ℚ) (thr minHist : ℚ) (s : StreamState)
        (idx : ℕ) (img last : Img), s.lastSaved = some last →
        ((streamStep hc thr minHist s idx img).kept = s.kept ↔
          mseU8 last.pixels img.pixels ≤ thr ∧ minHist ≤ hc last img)) ∧
      ∀ (hc : Img → Img → ℚ) (simThr mseThr : ℚ) (i1 i2 : Img),
        frameIsBlack i1 = false → frameIsBlack i2 = false →
        are_frames_similar hc simThr mseThr (.ok i1) (.ok i2) =
          scoreSimilar (hc i1 i2) (mseU8 i1.pixels i2.pixels)
            (madQ i1.pixels i2.pixels) simThr mseThr := by
  constructor
  · intro hc thr minHist s idx img last hl
    simp only [streamStep, hl, calculate_frame_difference]
    split
    case isTrue hcond =>
      simp only [Bool.or_eq_true, decide_eq_true_eq] at hcond
      constructor
      · intro hk
        exact absurd (congrArg List.length hk) (by simp)
      · rintro ⟨hm, hh⟩
        rcases hcond with hcond | hcond
        · exact absurd hm (not_le.mpr hcond)
        · exact absurd hh (not_le.mpr hcond)
    case isFalse hcond =>
      simp only [Bool.or_eq_true, decide_eq_true_eq, not_or, not_lt] at hcond
      simpa using hcond
  · intro hc simThr mseThr i1 i2 hb1 hb2
    unfold are_frames_similar are_frames_similar_body runCaught are_frames_similar_core
    simp [hb1, hb2]

/-- Witness for C1 amended at concrete inputs: tracking a bright frame,
a black candidate with mse 64 and hist_corr 0.99 at thresholds 30 and
0.95; and a bright non-black pair in the batch pass. -/
theorem c1_amended_witness :
    ((streamStep hcConst 30 (95/100) ⟨[0], some imgA, 1⟩ 1 imgB).kept = [0] ↔
        mseU8 imgA.pixels imgB.pixels ≤ 30 ∧ (95/100 : ℚ) ≤ hcConst imgA imgB) ∧
      are_frames_similar hcConst (95/100) 30 (.ok imgA) (.ok imgA) =
        scoreSimilar (hcConst imgA imgA) (mseU8 imgA.pixels imgA.pixels)
          (madQ imgA.pixels imgA.pixels) (95/100) 30 :=
  ⟨c1_amended.1 hcConst 30 (95/100) ⟨[0], some imgA, 1⟩ 1 imgB imgA rfl,
    c1_amended.2 hcConst (95/100) 30 imgA imgA
      (by norm_num [frameIsBlack, imgA, meanQ, varQ, listMean])
      (by norm_num [frameIsBlack, imgA, meanQ, varQ, listMean])⟩

/-- The batch filter preserves the no-black invariant on its filtered
list and previous image, one step at a time. -/
theorem batch_no_black_aux (hc : Img → Img → ℚ) (simThr mseThr : ℚ) :
    ∀ (imgs : List ImgFile) (s : BatchState),
      (∀ f ∈ s.filtered, is_black_frame f = false) →
      (∀ p, s.prev = some p → is_black_frame p = false) →
      (∀ f ∈ (imgs.foldl (batchStep hc simThr mseThr) s).filtered,
          is_black_frame f = false) ∧
        ∀ p, (imgs.foldl (batchStep hc simThr mseThr) s).prev = some p →
          is_black_frame p = false := by
  intro imgs
  induction imgs with
  | nil => intro s h1 h2; exact ⟨h1, h2⟩
  | cons a rest ih =>
    intro s h1 h2
    rw [List.foldl_cons]
    apply ih
    · intro f hf
      unfold batchStep at hf
      by_cases hba : is_black_frame a = true
      · rw [if_pos hba] at hf
        exact h1 f hf
      · rw [if_neg hba] at hf
        rw [Bool.not_eq_true] at hba
        cases hp : s.prev with
        | none =>
          rw [hp] at hf
          simp only [List.mem_append, List.mem_singleton] at hf
          rcases hf with hf | hf
          · exact h1 f hf
          · rw [hf]; exact hba
        | some p =>
          rw [hp] at hf
          dsimp only at hf
          by_cases hsim : are_frames_similar hc simThr mseThr p a = true
          · rw [if_pos hsim] at hf
            exact h1 f hf
          · rw [if_neg hsim] at hf
            simp only [List.mem_append, List.mem_singleton] at hf
            rcases hf with hf | hf
            · exact h1 f hf
            · rw [hf]; exact hba
    · intro q hq
      unfold batchStep at hq
      by_cases hba : is_black_frame a = true
      · rw [if_pos hba] at hq
        exact h2 q hq
      · rw [if_neg hba] at hq
        rw [Bool.not_eq_true] at hba
        cases hp : s.prev with
        | none =>
          rw [hp] at hq
          simp only [Option.some.injEq] at hq
          rw [← hq]; exact hba
        | some p =>
          rw [hp] at hq
          dsimp only at hq
          by_cases hsim : are_frames_similar hc simThr mseThr p a = true
          · rw [if_pos hsim] at hq
            simp only [Option.some.injEq] at hq
            rw [← hq]; exact h2 p hp
          · rw [if_neg hsim] at hq
            simp only [Option.some.injEq] at hq
            rw [← hq]; exact hba

/-- C2 amended. The streaming change-detection pass has no degeneracy
handling (see the counterexample); the guarantee holds in the batch
filtering pass: no frame the classifier marks black ever enters the
filtered output or becomes the previous comparison image, and a
nine-image batch with three fully black frames interleaved counts exactly
three black frames. -/
theorem c2_amended :
    (∀ (hc : Img → Img → ℚ) (simThr mseThr : ℚ) (imgs : List ImgFile),
        ∀ f ∈ (generate_slides_filter hc simThr mseThr imgs).filtered,
          is_black_frame f = false) ∧
      (∀ (hc : Img → Img → ℚ) (simThr mseThr : ℚ) (imgs : List ImgFile) (p : ImgFile),
          (generate_slides_filter hc simThr mseThr imgs).prev = some p →
          is_black_frame p = false) ∧
      (generate_slides_filter hcConst (92/100) 200 imgs9).blackCount = 3 := by
  refine ⟨?_, ?_, ?_⟩
  · intro hc simThr mseThr imgs
    exact (batch_no_black_aux hc simThr mseThr imgs batchInit
      (by intro f hf; simp [batchInit] at hf) (by intro p hp; simp [batchInit] at hp)).1
  · intro hc simThr mseThr imgs
    exact (batch_no_black_aux hc simThr mseThr imgs batchInit
      (by intro f hf; simp [batchInit] at hf) (by intro p hp; simp [batchInit] at hp)).2
  · norm_num [generate_slides_filter, imgs9, batchStep, batchInit,
      is_black_frame, is_black_frame_body, runCaught, degenerateTest,
      are_frames_similar, are_frames_similar_body, are_frames_similar_core,
      frameIsBlack, scoreSimilar, hcConst, imgA, imgB,
      mseU8, madQ, meanQ, varQ, listMean, u8sub, u8sq]

/-- Witness for C2 amended: the surviving frame of a one-image batch is
not black, and neither is the previous image the run ends with. -/
theorem c2_amended_witness :
    is_black_frame (.ok imgA) = false ∧ is_black_frame (.ok imgA) = false :=
  ⟨c2_amended.1 hcConst (92/100) 200 [.ok imgA] (.ok imgA)
      (by norm_num [generate_slides_filter, batchStep, batchInit,
        is_black_frame, is_black_frame_body, runCaught, degenerateTest,
        imgA, meanQ, varQ, listMean]),
    c2_amended.2.1 hcConst (92/100) 200 [.ok imgA] (.ok imgA)
      (by norm_num [generate_slides_filter, batchStep, batchInit,
        is_black_frame, is_black_frame_body, runCaught, degenerateTest,
        imgA, meanQ, varQ, listMean])⟩

/-- C7. Key-frame mode computes step = totalFrames / (numFrames + 1) in
integer division, visits exactly the index list step * (i + 1) for
i below numFrames, which is ordered nondecreasingly, and a pair (idx, im)
is kept exactly when idx is one of those indices and the seek-and-read at
idx decodes to im, with no similarity or degeneracy check. -/
theorem c7_key_frame_sampling :
    ∀ t n : ℕ,
      (∀ i : ℕ, i < n →
          (key_frame_indices t n)[i]? = some (t / (n + 1) * (i + 1))) ∧
        List.Pairwise (· ≤ ·) (key_frame_indices t n) ∧
        ∀ (decode : ℕ → Option Img) (idx : ℕ) (im : Img),
          ((idx, im) ∈ extract_key_frames_run decode t n ↔
            idx ∈ key_frame_indices t n ∧ decode idx = some im) := by
  intro t n
  refine ⟨?_, ?_, ?_⟩
  · intro i hi
    simp [key_frame_indices, key_frame_step, List.getElem?_range, hi]
  · unfold key_frame_indices
    rw [List.pairwise_map]
    apply List.Pairwise.imp ?_ (List.pairwise_lt_range n)
    intro a b hab
    exact Nat.mul_le_mul (Nat.le_refl _) (by omega)
  · intro decode idx im
    unfold extract_key_frames_run
    rw [List.mem_filterMap]
    constructor
    · rintro ⟨a, ha, hg⟩
      rw [Option.map_eq_some'] at hg
      obtain ⟨m, hm, hpair⟩ := hg
      have h1 : a = idx := congrArg Prod.fst hpair
      have h2 : m = im := congrArg Prod.snd hpair
      subst h1; subst h2
      exact ⟨ha, hm⟩
    · rintro ⟨hidx, hdec⟩
      exact ⟨idx, hidx, by rw [hdec]; rfl⟩

/-- Witness for C7 at totalFrames 10 and numFrames 4: the second visited
index is 4, and index 2 with its decoded image is kept exactly because 2
is in the index list and decodes. -/
theorem c7_key_frame_sampling_witness :
    (key_frame_indices 10 4)[1]? = some 4 ∧
      ((2, Img.mk [2]) ∈ extract_key_frames_run dec0 10 4 ↔
        2 ∈ key_frame_indices 10 4 ∧ dec0 2 = some (Img.mk [2])) :=
  ⟨(c7_key_frame_sampling 10 4).1 1 (by norm_num),
    (c7_key_frame_sampling 10 4).2.2 dec0 2 ⟨[2]⟩⟩

end FrameSelect
